import Mathlib

/-!
Shallow embedding of the autobids-globus reconciliation script
(`globusautobids/globus.py` and `globusautobids/models.py`).

The persisted state (PostgreSQL via SQLAlchemy) is modelled as explicit
lists of rows with surrogate-id counters; every remote HTTP call made by
the script is recorded as an `Event` in a trace.  All functions are
translated from the Python source.
-/

namespace Autobids

/-- `models.DatasetType`: enum with the three dataset types. -/
inductive DatasetType where
  | SOURCE_DATA
  | RAW_DATA
  | DERIVED_DATA
deriving DecidableEq, Repr

/-- `DatasetType.from_bids_str`: dictionary lookup from the BIDS string.
The Python raises `KeyError` for a string outside the closed set
{sourcedata, rawdata, deriveddata}; that failure is modelled as `none`. -/
def from_bids_str (bids_str : String) : Option DatasetType :=
  if bids_str = "sourcedata" then some DatasetType.SOURCE_DATA
  else if bids_str = "rawdata" then some DatasetType.RAW_DATA
  else if bids_str = "deriveddata" then some DatasetType.DERIVED_DATA
  else none

/-- A row of the `guest_collection` table (`models.GuestCollection`). -/
structure GuestCollection where
  id : Nat
  study_id : Nat
  dataset_type : DatasetType
  globus_uuid : String
deriving DecidableEq, Repr

/-- A row of the `globus_user` table (`models.GlobusUser`). -/
structure GlobusUser where
  id : Nat
  username : String
  guest_collection_id : Option Nat
deriving DecidableEq, Repr

/-- The persisted database state: the three tables of `models.py`
(`guest_collection`, `globus_user`, and the `association` join table of
(guest_collection_id, globus_user_id) pairs) plus surrogate-id counters. -/
structure DB where
  guest_collections : List GuestCollection
  globus_users : List GlobusUser
  associations : List (Nat × Nat)
  next_gc_id : Nat
  next_user_id : Nat
deriving DecidableEq, Repr

/-- A study record fetched from the autobids portal
(`{id, type, path, users}`). -/
structure Study where
  id : Nat
  type : String
  path : String
  users : List String
deriving DecidableEq, Repr

/-- The JSON body of an access-control rule posted by
`add_read_permission`. -/
structure AclRule where
  principal_type : String
  principal : String
  path : String
  permissions : String
deriving DecidableEq, Repr

/-- One observable step of a reconciliation run: a remote
"create collection" POST, a remote "add ACL rule" POST (together with the
resolved rule and the username it was issued for), or a database commit. -/
inductive Event where
  | createCollectionCall (display_name : String) (base_path : String) : Event
  | grantCall (collection_uuid : String) (username : String) (rule : AclRule) : Event
  | commit : Event
deriving DecidableEq, Repr

/-- Failure modes of `update_collection`.  `UnknownDatasetType` models the
`KeyError` raised by `DatasetType.from_bids_str` on a string outside the
closed dataset-type set. -/
inductive GlobusError where
  | UnknownDatasetType (bids_str : String)
deriving DecidableEq, Repr

/-- A user-credential record returned by the GCS manager
`GET user_credentials` listing. -/
structure Credential where
  id : String
  storage_gateway_id : String
deriving DecidableEq, Repr

/-- `get_credential`: scan the credential listing for one whose
`storage_gateway_id` equals the target gateway and return its id;
otherwise POST a new credential (whose id the server returns as
`created_id`).  The second component counts the create requests issued. -/
def get_credential (listing : List Credential) (id_storage_gateway : String)
    (created_id : String) : String × Nat :=
  match listing.find? (fun cred => decide (cred.storage_gateway_id = id_storage_gateway)) with
  | some cred => (cred.id, 0)
  | none => (created_id, 1)

/-- `add_read_permission`: resolve the username to its (first) identity id
via the auth client, then post an ACL rule with path "/" and permission
"r" on the guest collection.  `resolve` models
`auth_client.get_identities(...)["identities"][0]["id"]`. -/
def add_read_permission (resolve : String → String) (id_collection_guest : String)
    (email : String) : Event :=
  Event.grantCall id_collection_guest email
    { principal_type := "identity"
      principal := resolve email
      path := "/"
      permissions := "r" }

/-- Display name of the created collection,
`f"autobids_study-{study['id']}_type-{study['type']}"`. -/
def mkDisplayName (study : Study) : String :=
  "autobids_study-" ++ toString study.id ++ "_type-" ++ study.type

/-- The `filter_by(study_id=..., dataset_type=...)` predicate of the
guest-collection lookup in `update_collection`. -/
def gcKeyMatch (sid : Nat) (dt : DatasetType) (gc : GuestCollection) : Bool :=
  decide (gc.study_id = sid) && decide (gc.dataset_type = dt)

/-- The usernames already associated with guest collection `gcid`, i.e. the
set comprehension over `guest_collection.globus_users` (the relationship
through the association table). -/
def existingUsernames (db : DB) (gcid : Nat) : List String :=
  (db.associations.filter (fun p => decide (p.1 = gcid))).filterMap
    (fun p => (db.globus_users.find? (fun gu => decide (gu.id = p.2))).map
      (fun gu => gu.username))

/-- The provision-if-absent phase of `update_collection`: look up the
`GuestCollection` row keyed by `(study.id, dataset_type)`; if absent,
call `create_collection` remotely (the server returns `new_uuid`), insert
the row, and commit immediately. -/
def provision (new_uuid : String) (study : Study) (dt : DatasetType) (db : DB) :
    GuestCollection × DB × List Event :=
  match db.guest_collections.find? (gcKeyMatch study.id dt) with
  | some gc => (gc, db, [])
  | none =>
    let gc : GuestCollection :=
      { id := db.next_gc_id
        study_id := study.id
        dataset_type := dt
        globus_uuid := new_uuid }
    (gc,
      { db with
        guest_collections := db.guest_collections ++ [gc]
        next_gc_id := db.next_gc_id + 1 },
      [Event.createCollectionCall (mkDisplayName study) study.path, Event.commit])

/-- The grant loop of `update_collection`: for each username of the study,
if it is not in the `existing` set computed before the loop, issue
`add_read_permission`, look the username up in the `globus_user` table
(reusing the row if present, inserting a fresh one otherwise), and append
the association row. -/
def grantLoop (resolve : String → String) (uuid : String) (gcid : Nat)
    (existing : List String) : List String → DB → List Event → DB × List Event
  | [], db, tr => (db, tr)
  | u :: rest, db, tr =>
    if u ∈ existing then
      grantLoop resolve uuid gcid existing rest db tr
    else
      let tr' := tr ++ [add_read_permission resolve uuid u]
      match db.globus_users.find? (fun gu => decide (gu.username = u)) with
      | some gu =>
        grantLoop resolve uuid gcid existing rest
          { db with associations := db.associations ++ [(gcid, gu.id)] } tr'
      | none =>
        let new_user : GlobusUser :=
          { id := db.next_user_id
            username := u
            guest_collection_id := some gcid }
        grantLoop resolve uuid gcid existing rest
          { db with
            globus_users := db.globus_users ++ [new_user]
            next_user_id := db.next_user_id + 1
            associations := db.associations ++ [(gcid, new_user.id)] } tr'

/-- `update_collection`: parse the dataset type (raising on an unknown
string), provision the guest collection if absent, compute the existing
usernames, run the grant loop, and commit.  Returns the final database
and the trace of remote calls and commits. -/
def update_collection (resolve : String → String) (new_uuid : String)
    (study : Study) (db : DB) : Except GlobusError (DB × List Event) :=
  match from_bids_str study.type with
  | none => Except.error (GlobusError.UnknownDatasetType study.type)
  | some dt =>
    match provision new_uuid study dt db with
    | (gc, db1, tr1) =>
      let existing := existingUsernames db1 gc.id
      match grantLoop resolve gc.globus_uuid gc.id existing study.users db1 tr1 with
      | (db2, tr2) => Except.ok (db2, tr2 ++ [Event.commit])

/-- The study loop of `main_native`: process the fetched studies in order
with `update_collection`.  The loop body has no exception handling, so a
failure on one study aborts the whole run: the returned error marks where
processing stopped, and later studies are untouched. -/
def main_native_loop (resolve : String → String) (uuid_for : Study → String) :
    List Study → DB → DB × List Event × Option GlobusError
  | [], db => (db, [], none)
  | s :: rest, db =>
    match update_collection resolve (uuid_for s) s db with
    | Except.error e => (db, [], some e)
    | Except.ok (db', tr) =>
      match main_native_loop resolve uuid_for rest db' with
      | (db'', tr', err) => (db'', tr ++ tr', err)

/-- Is the event a remote grant (ACL rule) call? -/
def isGrant : Event → Bool
  | Event.grantCall _ _ _ => true
  | _ => false

/-- Is the event a remote create-collection call? -/
def isCreate : Event → Bool
  | Event.createCollectionCall _ _ => true
  | _ => false

/-- Number of remote grant calls in a trace. -/
def countGrants (tr : List Event) : Nat := (tr.filter isGrant).length

/-- Number of remote create-collection calls in a trace. -/
def countCreates (tr : List Event) : Nat := (tr.filter isCreate).length

/-- The usernames for which a grant call appears in the trace, in order. -/
def grantedUsers (tr : List Event) : List String :=
  tr.filterMap (fun e =>
    match e with
    | Event.grantCall _ u _ => some u
    | _ => none)

/-- The association rows observed by username instead of surrogate user id:
pairs (guest-collection id, username). -/
def assocObs (db : DB) : List (Nat × String) :=
  db.associations.filterMap
    (fun p => (db.globus_users.find? (fun gu => decide (gu.id = p.2))).map
      (fun gu => (p.1, gu.username)))

/-- Structural well-formedness of the `globus_user` table and the
association rows, as guaranteed by the schema (serial surrogate keys):
every user id is below the counter, user ids are distinct, and every
association's user id is below the counter. -/
def DB.UsersWF (db : DB) : Prop :=
  (∀ gu ∈ db.globus_users, gu.id < db.next_user_id) ∧
  (db.globus_users.map GlobusUser.id).Nodup ∧
  (∀ p ∈ db.associations, p.2 < db.next_user_id)

instance (db : DB) : Decidable db.UsersWF := by
  unfold DB.UsersWF
  infer_instance

/-! ### Concrete sample inputs used in counterexamples and witnesses -/

/-- A sample identity resolver. -/
def resolve0 : String → String := fun _ => "identity-0"

/-- A sample remote collection-id supply for the driver loop. -/
def uuidFor0 : Study → String := fun s => "uuid-" ++ toString s.id

/-- The empty database. -/
def emptyDB : DB :=
  { guest_collections := []
    globus_users := []
    associations := []
    next_gc_id := 0
    next_user_id := 0 }

/-- A study with a dataset-type string outside the closed set. -/
def badStudy : Study := { id := 1, type := "unknown", path := "/p1", users := [] }

/-- A well-formed study. -/
def goodStudy : Study :=
  { id := 2, type := "rawdata", path := "/p2", users := ["alice"] }

/-- A study whose user list contains the same username twice. -/
def dupStudy : Study :=
  { id := 5, type := "rawdata", path := "/p5", users := ["carol", "carol"] }

/-- A guest collection row matching `dupStudy`. -/
def gcX : GuestCollection :=
  { id := 0, study_id := 5, dataset_type := DatasetType.RAW_DATA
    globus_uuid := "uuid-x" }

/-- A database already holding `gcX` with no users. -/
def dbX : DB :=
  { guest_collections := [gcX]
    globus_users := []
    associations := []
    next_gc_id := 1
    next_user_id := 0 }

/-- A two-user study, and the same study with its user list permuted. -/
def studyAB : Study :=
  { id := 3, type := "rawdata", path := "/p3", users := ["alice", "bob"] }

/-- `studyAB` with the user list in the opposite order. -/
def studyBA : Study :=
  { id := 3, type := "rawdata", path := "/p3", users := ["bob", "alice"] }

/-- The database component of an `update_collection` result (`fallback` for
the error case). -/
def resultDB (r : Except GlobusError (DB × List Event)) (fallback : DB) : DB :=
  match r with
  | Except.ok p => p.1
  | Except.error _ => fallback

/-- A guest collection row for study 7. -/
def gcY : GuestCollection :=
  { id := 0, study_id := 7, dataset_type := DatasetType.RAW_DATA
    globus_uuid := "uuid-y" }

/-- A user row already associated with `gcY`. -/
def userY : GlobusUser := { id := 0, username := "alice", guest_collection_id := some 0 }

/-- A database where `gcY` exists and `alice` is already associated. -/
def dbY : DB :=
  { guest_collections := [gcY]
    globus_users := [userY]
    associations := [(0, 0)]
    next_gc_id := 1
    next_user_id := 1 }

/-- A study for `gcY` whose user list strictly extends the associated set. -/
def studyY : Study :=
  { id := 7, type := "rawdata", path := "/p7", users := ["alice", "bob"] }

/-- A sample credential listing. -/
def credListX : List Credential :=
  [{ id := "cred-1", storage_gateway_id := "gw-2" },
   { id := "cred-2", storage_gateway_id := "gw-1" }]

/-! ### Structural lemmas about the grant loop -/

/-- The trace produced by the grant loop: one `add_read_permission` call per
username of the list not in the `existing` set, in list order, appended to
the accumulator. -/
theorem grantLoop_trace (resolve : String → String) (uuid : String) (gcid : Nat)
    (existing : List String) (users : List String) :
    ∀ (db : DB) (tr : List Event),
      (grantLoop resolve uuid gcid existing users db tr).2 =
        tr ++ (users.filter fun u => decide (u ∉ existing)).map
          (add_read_permission resolve uuid) := by
  induction users with
  | nil => intro db tr; simp [grantLoop]
  | cons u rest ih =>
    intro db tr
    by_cases h : u ∈ existing
    · simp [grantLoop, h, ih]
    · simp only [grantLoop, if_neg h]
      cases hf : db.globus_users.find? (fun gu => decide (gu.username = u)) with
      | some gu => simp [hf, ih, h]
      | none => simp [hf, ih, h]

/-- The grant loop never touches the `guest_collection` table or its
counter. -/
theorem grantLoop_gcs (resolve : String → String) (uuid : String) (gcid : Nat)
    (existing : List String) (users : List String) :
    ∀ (db : DB) (tr : List Event),
      (grantLoop resolve uuid gcid existing users db tr).1.guest_collections =
        db.guest_collections ∧
      (grantLoop resolve uuid gcid existing users db tr).1.next_gc_id =
        db.next_gc_id := by
  induction users with
  | nil => intro db tr; simp [grantLoop]
  | cons u rest ih =>
    intro db tr
    by_cases h : u ∈ existing
    · simp [grantLoop, h, ih]
    · simp only [grantLoop, if_neg h]
      cases hf : db.globus_users.find? (fun gu => decide (gu.username = u)) with
      | some gu => simp [hf, ih]
      | none => simp [hf, ih]

/-- The grant loop appends exactly one association row per username of the
list not in the `existing` set. -/
theorem grantLoop_assoc_length (resolve : String → String) (uuid : String)
    (gcid : Nat) (existing : List String) (users : List String) :
    ∀ (db : DB) (tr : List Event),
      (grantLoop resolve uuid gcid existing users db tr).1.associations.length =
        db.associations.length +
          ((users.filter fun u => decide (u ∉ existing)).length) := by
  induction users with
  | nil => intro db tr; simp [grantLoop]
  | cons u rest ih =>
    intro db tr
    by_cases h : u ∈ existing
    · simp [grantLoop, h, ih]
    · simp only [grantLoop, if_neg h]
      cases hf : db.globus_users.find? (fun gu => decide (gu.username = u)) with
      | some gu => simp [hf, ih, h]; omega
      | none => simp [hf, ih, h]; omega

/-- If every username of the study is already in the `existing` set, the
grant loop does nothing at all. -/
theorem grantLoop_all_existing (resolve : String → String) (uuid : String)
    (gcid : Nat) (existing : List String) (users : List String) (db : DB)
    (tr : List Event) (h : ∀ u ∈ users, u ∈ existing) :
    grantLoop resolve uuid gcid existing users db tr = (db, tr) := by
  induction users with
  | nil => simp [grantLoop]
  | cons u rest ih =>
    have hu : u ∈ existing := h u (List.mem_cons_self u rest)
    rw [grantLoop, if_pos hu]
    exact ih fun v hv => h v (List.mem_cons_of_mem u hv)

/-- Membership in `existingUsernames` is stable under appending user rows
and association rows: a pair that already resolved keeps resolving to the
same user (lookups scan left to right). -/
theorem existingUsernames_extend {db db' : DB} (xs : List GlobusUser)
    (ys : List (Nat × Nat))
    (hu' : db'.globus_users = db.globus_users ++ xs)
    (ha' : db'.associations = db.associations ++ ys)
    (g : Nat) {u : String} (hu : u ∈ existingUsernames db g) :
    u ∈ existingUsernames db' g := by
  unfold existingUsernames at hu ⊢
  rw [hu', ha']
  rw [List.mem_filterMap] at hu
  obtain ⟨p, hp, hfp⟩ := hu
  rw [List.mem_filterMap]
  refine ⟨p, ?_, ?_⟩
  · rw [List.filter_append]
    exact List.mem_append_left _ hp
  · cases hf : db.globus_users.find? (fun gu => decide (gu.id = p.2)) with
    | none => rw [hf] at hfp; simp at hfp
    | some gu =>
      rw [hf] at hfp
      rw [List.find?_append, hf]
      simpa using hfp

/-- With distinct user ids, looking a member row up by its own id finds
exactly that row. -/
theorem find_by_id_of_mem {l : List GlobusUser}
    (hnd : (l.map GlobusUser.id).Nodup) {gu : GlobusUser} (hmem : gu ∈ l) :
    l.find? (fun x => decide (x.id = gu.id)) = some gu := by
  induction l with
  | nil => cases hmem
  | cons a rest ih =>
    rw [List.map_cons, List.nodup_cons] at hnd
    rcases List.mem_cons.mp hmem with rfl | hmem'
    · simp [List.find?]
    · have hne : ¬a.id = gu.id := fun he =>
        hnd.1 (he ▸ List.mem_map_of_mem GlobusUser.id hmem')
      rw [List.find?_cons, ih hnd.2 hmem']
      simp [hne]

/-- A user-id lookup at the counter value finds nothing among rows whose
ids are all below the counter. -/
theorem find_by_id_none_of_lt {l : List GlobusUser} {n : Nat}
    (hb : ∀ gu ∈ l, gu.id < n) :
    l.find? (fun x => decide (x.id = n)) = none := by
  rw [List.find?_eq_none]
  intro x hx
  simpa using Nat.ne_of_lt (hb x hx)

/-- After appending the association row for a user row found by username,
that username is among the collection's existing usernames. -/
theorem existingUsernames_append_found {db : DB} {u : String} {gu : GlobusUser}
    (hnd : (db.globus_users.map GlobusUser.id).Nodup)
    (hf : db.globus_users.find? (fun x => decide (x.username = u)) = some gu)
    (g : Nat) :
    u ∈ existingUsernames
      { db with associations := db.associations ++ [(g, gu.id)] } g := by
  have hmem := List.mem_of_find?_eq_some hf
  have husr : gu.username = u := by simpa using List.find?_some hf
  unfold existingUsernames
  rw [List.mem_filterMap]
  refine ⟨(g, gu.id), ?_, ?_⟩
  · simp [List.filter_append]
  · simp [find_by_id_of_mem hnd hmem, husr]

/-- After inserting a fresh user row (id = counter) and its association
row, that username is among the collection's existing usernames. -/
theorem existingUsernames_append_new {db : DB} (u : String) (g : Nat)
    (hb : ∀ gu ∈ db.globus_users, gu.id < db.next_user_id) :
    u ∈ existingUsernames
      { db with
        globus_users := db.globus_users ++
          [{ id := db.next_user_id, username := u, guest_collection_id := some g }]
        next_user_id := db.next_user_id + 1
        associations := db.associations ++ [(g, db.next_user_id)] } g := by
  unfold existingUsernames
  rw [List.mem_filterMap]
  refine ⟨(g, db.next_user_id), ?_, ?_⟩
  · simp [List.filter_append]
  · rw [List.find?_append, find_by_id_none_of_lt hb]
    simp [List.find?]

/-- Appending an association row whose user id belongs to a member row
preserves well-formedness. -/
theorem usersWF_append_found {db : DB} {gu : GlobusUser} (g : Nat)
    (hwf : db.UsersWF) (hmem : gu ∈ db.globus_users) :
    DB.UsersWF { db with associations := db.associations ++ [(g, gu.id)] } := by
  obtain ⟨hb, hnd, ha⟩ := hwf
  refine ⟨hb, hnd, ?_⟩
  intro p hp
  rcases List.mem_append.mp hp with h | h
  · exact ha p h
  · simp only [List.mem_singleton] at h
    subst h
    exact hb gu hmem

/-- Inserting a fresh user row at the counter (and bumping it) together
with its association row preserves well-formedness. -/
theorem usersWF_append_new {db : DB} (u : String) (g : Nat) (hwf : db.UsersWF) :
    DB.UsersWF
      { db with
        globus_users := db.globus_users ++
          [{ id := db.next_user_id, username := u, guest_collection_id := some g }]
        next_user_id := db.next_user_id + 1
        associations := db.associations ++ [(g, db.next_user_id)] } := by
  obtain ⟨hb, hnd, ha⟩ := hwf
  refine ⟨?_, ?_, ?_⟩
  · intro gu hgu
    rcases List.mem_append.mp hgu with h | h
    · exact Nat.lt_succ_of_lt (hb gu h)
    · simp only [List.mem_singleton] at h
      subst h
      exact Nat.lt_succ_self _
  · rw [List.map_append, List.nodup_append]
    refine ⟨hnd, List.nodup_singleton _, ?_⟩
    intro x hx
    simp only [List.map_singleton, List.mem_singleton]
    intro he
    rw [List.mem_map] at hx
    obtain ⟨gu, hgu, rfl⟩ := hx
    exact absurd he (Nat.ne_of_lt (hb gu hgu))
  · intro p hp
    rcases List.mem_append.mp hp with h | h
    · exact Nat.lt_succ_of_lt (ha p h)
    · simp only [List.mem_singleton] at h
      subst h
      exact Nat.lt_succ_self _

/-- After the grant loop, every username of the study list — and every
username that was already associated — is associated with the collection,
provided the `existing` set under-approximates the current associations. -/
theorem grantLoop_covers (resolve : String → String) (uuid : String) (gcid : Nat)
    (existing : List String) (users : List String) :
    ∀ (db : DB) (tr : List Event), db.UsersWF →
      (∀ v ∈ existing, v ∈ existingUsernames db gcid) →
      ∀ u, (u ∈ users ∨ u ∈ existingUsernames db gcid) →
        u ∈ existingUsernames
          (grantLoop resolve uuid gcid existing users db tr).1 gcid := by
  induction users with
  | nil =>
    intro db tr _ _ u hu
    rw [grantLoop]
    exact hu.resolve_left (by simp)
  | cons w rest ih =>
    intro db tr hwf hex u hu
    by_cases h : w ∈ existing
    · rw [grantLoop, if_pos h]
      apply ih db tr hwf hex
      rcases hu with hu | hu
      · rcases List.mem_cons.mp hu with rfl | hu'
        · exact Or.inr (hex u h)
        · exact Or.inl hu'
      · exact Or.inr hu
    · rw [grantLoop, if_neg h]
      cases hf : db.globus_users.find? (fun gu => decide (gu.username = w)) with
      | some gu =>
        have hmem := List.mem_of_find?_eq_some hf
        apply ih _ _ (usersWF_append_found gcid hwf hmem)
        · intro v hv
          exact existingUsernames_extend [] [(gcid, gu.id)] (by simp) rfl gcid
            (hex v hv)
        · rcases hu with hu | hu
          · rcases List.mem_cons.mp hu with rfl | hu'
            · exact Or.inr (existingUsernames_append_found hwf.2.1 hf gcid)
            · exact Or.inl hu'
          · exact Or.inr (existingUsernames_extend [] [(gcid, gu.id)] (by simp) rfl
              gcid hu)
      | none =>
        apply ih _ _ (usersWF_append_new w gcid hwf)
        · intro v hv
          exact existingUsernames_extend _ [(gcid, db.next_user_id)] rfl rfl gcid
            (hex v hv)
        · rcases hu with hu | hu
          · rcases List.mem_cons.mp hu with rfl | hu'
            · exact Or.inr (existingUsernames_append_new u gcid hwf.1)
            · exact Or.inl hu'
          · exact Or.inr (existingUsernames_extend _ [(gcid, db.next_user_id)] rfl
              rfl gcid hu)

/-- Usernames in the user table after the grant loop, for a duplicate-free
study list: the old usernames followed by the usernames of the list that
are neither in the `existing` set nor already present in the table. -/
theorem grantLoop_usernames (resolve : String → String) (uuid : String)
    (gcid : Nat) (existing : List String) :
    ∀ (users : List String) (db : DB) (tr : List Event), users.Nodup →
      (grantLoop resolve uuid gcid existing users db tr).1.globus_users.map
          GlobusUser.username =
        db.globus_users.map GlobusUser.username ++
          users.filter (fun u => decide (u ∉ existing) &&
            (db.globus_users.find?
              (fun gu => decide (gu.username = u))).isNone) := by
  intro users
  induction users with
  | nil => intro db tr _; simp [grantLoop]
  | cons u rest ih =>
    intro db tr hnd
    rw [List.nodup_cons] at hnd
    by_cases h : u ∈ existing
    · rw [grantLoop, if_pos h, ih db tr hnd.2, List.filter_cons]
      simp [h]
    · rw [grantLoop, if_neg h]
      cases hf : db.globus_users.find? (fun gu => decide (gu.username = u)) with
      | some gu =>
        rw [ih _ _ hnd.2, List.filter_cons]
        simp [h, hf]
      | none =>
        rw [ih _ _ hnd.2, List.filter_cons]
        have hfc : ∀ v ∈ rest,
            ((db.globus_users ++
              [(⟨db.next_user_id, u, some gcid⟩ : GlobusUser)]).find?
                (fun gu => decide (gu.username = v))).isNone =
            (db.globus_users.find?
              (fun gu => decide (gu.username = v))).isNone := by
          intro v hv
          have hvne : u ≠ v := fun he => hnd.1 (he ▸ hv)
          rw [List.find?_append]
          cases hg : db.globus_users.find? (fun gu => decide (gu.username = v))
          · simp [List.find?_cons, hvne]
          · simp
        have hfilter :
            rest.filter (fun v => decide (v ∉ existing) &&
              ((db.globus_users ++
                [(⟨db.next_user_id, u, some gcid⟩ : GlobusUser)]).find?
                  (fun gu => decide (gu.username = v))).isNone) =
            rest.filter (fun v => decide (v ∉ existing) &&
              (db.globus_users.find?
                (fun gu => decide (gu.username = v))).isNone) :=
          List.filter_congr fun v hv => by rw [hfc v hv]
        simp only [hfilter]
        simp [h, hf]
  -- (the new user's username is appended, then the rest behaves as before)

/-- The observable associations after the grant loop: the old ones followed
by one pair `(gcid, u)` per occurrence `u` of the list not in the
`existing` set. -/
theorem grantLoop_assocObs (resolve : String → String) (uuid : String)
    (gcid : Nat) (existing : List String) :
    ∀ (users : List String) (db : DB) (tr : List Event), db.UsersWF →
      assocObs (grantLoop resolve uuid gcid existing users db tr).1 =
        assocObs db ++
          (users.filter fun u => decide (u ∉ existing)).map
            (fun u => (gcid, u)) := by
  intro users
  induction users with
  | nil => intro db tr _; simp [grantLoop]
  | cons u rest ih =>
    intro db tr hwf
    by_cases h : u ∈ existing
    · rw [grantLoop, if_pos h, ih db tr hwf, List.filter_cons]
      simp [h]
    · rw [grantLoop, if_neg h]
      cases hf : db.globus_users.find? (fun gu => decide (gu.username = u)) with
      | some gu =>
        have hmem := List.mem_of_find?_eq_some hf
        have husr : gu.username = u := by simpa using List.find?_some hf
        rw [ih _ _ (usersWF_append_found gcid hwf hmem), List.filter_cons]
        have hstep : assocObs
            { db with associations := db.associations ++ [(gcid, gu.id)] } =
            assocObs db ++ [(gcid, u)] := by
          unfold assocObs
          rw [List.filterMap_append]
          simp [find_by_id_of_mem hwf.2.1 hmem, husr]
        rw [hstep]
        simp [h]
      | none =>
        rw [ih _ _ (usersWF_append_new u gcid hwf), List.filter_cons]
        have hstep : assocObs
            { db with
              globus_users := db.globus_users ++
                [{ id := db.next_user_id, username := u,
                   guest_collection_id := some gcid }]
              next_user_id := db.next_user_id + 1
              associations := db.associations ++ [(gcid, db.next_user_id)] } =
            assocObs db ++ [(gcid, u)] := by
          unfold assocObs
          rw [List.filterMap_append]
          have hcong : ∀ p ∈ db.associations,
              ((db.globus_users ++
                [(⟨db.next_user_id, u, some gcid⟩ : GlobusUser)]).find?
                  (fun gu => decide (gu.id = p.2))).map
                (fun gu => (p.1, gu.username)) =
              (db.globus_users.find?
                (fun gu => decide (gu.id = p.2))).map
                (fun gu => (p.1, gu.username)) := by
            intro p hp
            rw [List.find?_append]
            cases hg : db.globus_users.find? (fun gu => decide (gu.id = p.2))
            · have hne : ¬db.next_user_id = p.2 :=
                Nat.ne_of_gt (hwf.2.2 p hp)
              simp [List.find?_cons, hne]
            · simp
          rw [List.filterMap_congr hcong]
          dsimp only
          simp only [List.filterMap_cons, List.filterMap_nil]
          rw [List.find?_append, find_by_id_none_of_lt hwf.1]
          simp [List.find?_cons]
        rw [hstep]
        simp [h]

/-! ### Unfolding helpers -/

/-- `provision` when the lookup finds a row: nothing happens. -/
theorem provision_found {new_uuid : String} {study : Study} {dt : DatasetType}
    {db : DB} {gc : GuestCollection}
    (h : db.guest_collections.find? (gcKeyMatch study.id dt) = some gc) :
    provision new_uuid study dt db = (gc, db, []) := by
  unfold provision
  rw [h]

/-- `provision` when the lookup finds nothing: one remote create call, one
inserted row, one commit. -/
theorem provision_none {new_uuid : String} {study : Study} {dt : DatasetType}
    {db : DB}
    (h : db.guest_collections.find? (gcKeyMatch study.id dt) = none) :
    provision new_uuid study dt db =
      ({ id := db.next_gc_id
         study_id := study.id
         dataset_type := dt
         globus_uuid := new_uuid },
       { db with
         guest_collections := db.guest_collections ++
           [{ id := db.next_gc_id
              study_id := study.id
              dataset_type := dt
              globus_uuid := new_uuid }]
         next_gc_id := db.next_gc_id + 1 },
       [Event.createCollectionCall (mkDisplayName study) study.path,
        Event.commit]) := by
  unfold provision
  rw [h]

/-- `update_collection` on a valid dataset type, expressed through
`provision` and `grantLoop`. -/
theorem update_collection_ok (resolve : String → String) (new_uuid : String)
    (study : Study) (db : DB) (dt : DatasetType)
    (hdt : from_bids_str study.type = some dt) :
    update_collection resolve new_uuid study db =
      Except.ok
        ((grantLoop resolve (provision new_uuid study dt db).1.globus_uuid
            (provision new_uuid study dt db).1.id
            (existingUsernames (provision new_uuid study dt db).2.1
              (provision new_uuid study dt db).1.id)
            study.users (provision new_uuid study dt db).2.1
            (provision new_uuid study dt db).2.2).1,
         (grantLoop resolve (provision new_uuid study dt db).1.globus_uuid
            (provision new_uuid study dt db).1.id
            (existingUsernames (provision new_uuid study dt db).2.1
              (provision new_uuid study dt db).1.id)
            study.users (provision new_uuid study dt db).2.1
            (provision new_uuid study dt db).2.2).2 ++ [Event.commit]) := by
  unfold update_collection
  rw [hdt]

/-! ### Trace counting helpers -/

theorem countCreates_append (a b : List Event) :
    countCreates (a ++ b) = countCreates a + countCreates b := by
  simp [countCreates, List.filter_append]

theorem countGrants_append (a b : List Event) :
    countGrants (a ++ b) = countGrants a + countGrants b := by
  simp [countGrants, List.filter_append]

/-- Grant events are not create events. -/
theorem countCreates_map_grants (resolve : String → String) (uuid : String)
    (l : List String) :
    countCreates (l.map (add_read_permission resolve uuid)) = 0 := by
  induction l with
  | nil => rfl
  | cons u rest ih => simp [countCreates, add_read_permission, isCreate] at ih ⊢

/-- The usernames of a block of grant events are exactly the mapped list. -/
theorem grantedUsers_map_grants (resolve : String → String) (uuid : String)
    (l : List String) :
    grantedUsers (l.map (add_read_permission resolve uuid)) = l := by
  induction l with
  | nil => rfl
  | cons u rest ih => simpa [grantedUsers, add_read_permission] using ih

/-- Each grant event contributes one username, so `countGrants` equals the
length of `grantedUsers`. -/
theorem countGrants_eq_grantedUsers_length (tr : List Event) :
    countGrants tr = (grantedUsers tr).length := by
  induction tr with
  | nil => rfl
  | cons e rest ih =>
    cases e <;> simpa [countGrants, grantedUsers, isGrant, List.filter_cons]
      using ih

theorem grantedUsers_append (a b : List Event) :
    grantedUsers (a ++ b) = grantedUsers a ++ grantedUsers b := by
  simp [grantedUsers, List.filterMap_append]

/-! ### Claim theorems -/

/-- **C2.** For a study with no `GuestCollection` row keyed by
`(study.id, dataset_type)`, `update_collection` issues exactly one remote
create-collection call, inserts exactly one new row recording the returned
remote identifier, and the trace starts with that call followed by its
commit, so the row is committed before any access grant appears (all
further events, in particular every grant, lie in `rest`, and `rest`
contains no create call).  For a study with an existing matching row, zero
create-collection calls are issued and the table is unchanged. -/
theorem update_collection_provision_if_absent
    (resolve : String → String) (new_uuid : String) (study : Study) (db : DB)
    (dt : DatasetType) (hdt : from_bids_str study.type = some dt) :
    (db.guest_collections.find? (gcKeyMatch study.id dt) = none →
      ∃ db' rest,
        update_collection resolve new_uuid study db =
          Except.ok (db',
            Event.createCollectionCall (mkDisplayName study) study.path ::
              Event.commit :: rest) ∧
        countCreates
          (Event.createCollectionCall (mkDisplayName study) study.path ::
            Event.commit :: rest) = 1 ∧
        countCreates rest = 0 ∧
        db'.guest_collections = db.guest_collections ++
          [{ id := db.next_gc_id
             study_id := study.id
             dataset_type := dt
             globus_uuid := new_uuid }]) ∧
    (∀ gc, db.guest_collections.find? (gcKeyMatch study.id dt) = some gc →
      ∃ db' tr,
        update_collection resolve new_uuid study db = Except.ok (db', tr) ∧
        countCreates tr = 0 ∧
        db'.guest_collections = db.guest_collections) := by
  constructor
  · intro hfind
    have hu := update_collection_ok resolve new_uuid study db dt hdt
    rw [provision_none hfind] at hu
    simp only at hu
    set gcnew : GuestCollection :=
      { id := db.next_gc_id
        study_id := study.id
        dataset_type := dt
        globus_uuid := new_uuid } with hgcnew
    set dbIns : DB :=
      { db with
        guest_collections := db.guest_collections ++ [gcnew]
        next_gc_id := db.next_gc_id + 1 } with hdbIns
    set ex := existingUsernames dbIns db.next_gc_id with hex
    have htr := grantLoop_trace resolve new_uuid db.next_gc_id ex study.users
      dbIns [Event.createCollectionCall (mkDisplayName study) study.path,
        Event.commit]
    set G := (study.users.filter fun u => decide (u ∉ ex)).map
      (add_read_permission resolve new_uuid) with hG
    refine ⟨(grantLoop resolve new_uuid db.next_gc_id ex study.users dbIns
        [Event.createCollectionCall (mkDisplayName study) study.path,
          Event.commit]).1,
      G ++ [Event.commit], ?_, ?_, ?_, ?_⟩
    · rw [hu, htr]
      simp
    · have h0 : countCreates (G ++ [Event.commit]) = 0 := by
        rw [countCreates_append, hG, countCreates_map_grants]
        rfl
      have hsplit :
          (Event.createCollectionCall (mkDisplayName study) study.path ::
            Event.commit :: (G ++ [Event.commit])) =
          [Event.createCollectionCall (mkDisplayName study) study.path,
            Event.commit] ++ (G ++ [Event.commit]) := rfl
      rw [hsplit, countCreates_append, h0]
      rfl
    · rw [countCreates_append, hG, countCreates_map_grants]
      rfl
    · exact (grantLoop_gcs resolve new_uuid db.next_gc_id ex study.users dbIns
        _).1
  · intro gc hfind
    have hu := update_collection_ok resolve new_uuid study db dt hdt
    rw [provision_found hfind] at hu
    simp only at hu
    set ex := existingUsernames db gc.id with hex
    have htr := grantLoop_trace resolve gc.globus_uuid gc.id ex study.users db []
    refine ⟨(grantLoop resolve gc.globus_uuid gc.id ex study.users db []).1,
      (grantLoop resolve gc.globus_uuid gc.id ex study.users db []).2 ++
        [Event.commit], hu, ?_, ?_⟩
    · rw [countCreates_append, htr]
      simp only [List.nil_append]
      rw [countCreates_map_grants]
      rfl
    · exact (grantLoop_gcs resolve gc.globus_uuid gc.id ex study.users db _).1

/-- **C1.** For a study with an existing guest collection, a duplicate-free
user list that is a strict superset of the usernames already associated:
the grant calls issued are exactly one per username of the set difference
`study.users − existing_usernames` (the granted list is duplicate-free),
exactly that many new association rows are added, and no already-associated
username receives a grant call. -/
theorem update_collection_grants_exactly_diff
    (resolve : String → String) (new_uuid : String) (study : Study) (db : DB)
    (dt : DatasetType) (gc : GuestCollection)
    (hdt : from_bids_str study.type = some dt)
    (hfind : db.guest_collections.find? (gcKeyMatch study.id dt) = some gc)
    (hnd : study.users.Nodup)
    (hsup : ∀ v ∈ existingUsernames db gc.id, v ∈ study.users)
    (hstrict : ∃ v ∈ study.users, v ∉ existingUsernames db gc.id)
    {db' : DB} {tr : List Event}
    (h : update_collection resolve new_uuid study db = Except.ok (db', tr)) :
    grantedUsers tr =
      study.users.filter (fun u => decide (u ∉ existingUsernames db gc.id)) ∧
    (grantedUsers tr).Nodup ∧
    db'.associations.length =
      db.associations.length + (grantedUsers tr).length ∧
    ∀ v ∈ existingUsernames db gc.id, v ∉ grantedUsers tr := by
  have hu := update_collection_ok resolve new_uuid study db dt hdt
  rw [provision_found hfind] at hu
  simp only at hu
  have heq := h.symm.trans hu
  simp only [Except.ok.injEq, Prod.mk.injEq] at heq
  obtain ⟨hdb', htr⟩ := heq
  set ex := existingUsernames db gc.id with hex
  have htrace := grantLoop_trace resolve gc.globus_uuid gc.id ex study.users db []
  have hgrants : grantedUsers tr =
      study.users.filter (fun u => decide (u ∉ ex)) := by
    rw [htr, grantedUsers_append, htrace]
    simp only [List.nil_append]
    rw [grantedUsers_map_grants]
    simp [grantedUsers]
  refine ⟨hgrants, ?_, ?_, ?_⟩
  · rw [hgrants]
    exact hnd.filter _
  · rw [hdb', grantLoop_assoc_length, hgrants]
  · intro v hv
    rw [hgrants]
    simp only [List.mem_filter, decide_eq_true_eq]
    rintro ⟨-, hnot⟩
    exact hnot hv

/-- **C3.** Reconciliation is idempotent with respect to already-associated
users: running `update_collection` twice in succession on the same study
(the first run succeeding), the second run issues zero grant calls, zero
create-collection calls, and leaves the database exactly unchanged. -/
theorem update_collection_idempotent
    (resolve : String → String) (uuid1 uuid2 : String) (study : Study)
    (db : DB) (dt : DatasetType)
    (hwf : db.UsersWF)
    (hdt : from_bids_str study.type = some dt)
    {db1 db2 : DB} {tr1 tr2 : List Event}
    (h1 : update_collection resolve uuid1 study db = Except.ok (db1, tr1))
    (h2 : update_collection resolve uuid2 study db1 = Except.ok (db2, tr2)) :
    countGrants tr2 = 0 ∧ countCreates tr2 = 0 ∧ db2 = db1 := by
  cases hfind : db.guest_collections.find? (gcKeyMatch study.id dt) with
  | some gc =>
    have hu1 := update_collection_ok resolve uuid1 study db dt hdt
    rw [provision_found hfind] at hu1
    simp only at hu1
    have heq1 := h1.symm.trans hu1
    simp only [Except.ok.injEq, Prod.mk.injEq] at heq1
    obtain ⟨hdb1, -⟩ := heq1
    have hgcs1 : db1.guest_collections = db.guest_collections := by
      rw [hdb1]
      exact (grantLoop_gcs resolve gc.globus_uuid gc.id
        (existingUsernames db gc.id) study.users db []).1
    have hfind2 : db1.guest_collections.find? (gcKeyMatch study.id dt) =
        some gc := by rw [hgcs1, hfind]
    have hcov : ∀ u ∈ study.users, u ∈ existingUsernames db1 gc.id := by
      intro u hu
      rw [hdb1]
      exact grantLoop_covers resolve gc.globus_uuid gc.id
        (existingUsernames db gc.id) study.users db [] hwf
        (fun v hv => hv) u (Or.inl hu)
    have hu2 := update_collection_ok resolve uuid2 study db1 dt hdt
    rw [provision_found hfind2] at hu2
    simp only at hu2
    rw [grantLoop_all_existing resolve gc.globus_uuid gc.id
      (existingUsernames db1 gc.id) study.users db1 [] hcov] at hu2
    have heq2 := h2.symm.trans hu2
    simp only [Except.ok.injEq, Prod.mk.injEq] at heq2
    obtain ⟨hdb2, htr2⟩ := heq2
    rw [htr2]
    exact ⟨rfl, rfl, hdb2⟩
  | none =>
    have hu1 := update_collection_ok resolve uuid1 study db dt hdt
    rw [provision_none hfind] at hu1
    simp only at hu1
    set gcnew : GuestCollection :=
      { id := db.next_gc_id
        study_id := study.id
        dataset_type := dt
        globus_uuid := uuid1 } with hgcnew
    set dbIns : DB :=
      { db with
        guest_collections := db.guest_collections ++ [gcnew]
        next_gc_id := db.next_gc_id + 1 } with hdbIns
    have heq1 := h1.symm.trans hu1
    simp only [Except.ok.injEq, Prod.mk.injEq] at heq1
    obtain ⟨hdb1, -⟩ := heq1
    have hgcs1 : db1.guest_collections = db.guest_collections ++ [gcnew] := by
      rw [hdb1]
      exact (grantLoop_gcs resolve uuid1 db.next_gc_id
        (existingUsernames dbIns db.next_gc_id) study.users dbIns _).1
    have hfind2 : db1.guest_collections.find? (gcKeyMatch study.id dt) =
        some gcnew := by
      rw [hgcs1, List.find?_append, hfind]
      simp [List.find?, gcKeyMatch]
    have hwfIns : dbIns.UsersWF := hwf
    have hcov : ∀ u ∈ study.users, u ∈ existingUsernames db1 db.next_gc_id := by
      intro u hu
      rw [hdb1]
      exact grantLoop_covers resolve uuid1 db.next_gc_id
        (existingUsernames dbIns db.next_gc_id) study.users dbIns _ hwfIns
        (fun v hv => hv) u (Or.inl hu)
    have hu2 := update_collection_ok resolve uuid2 study db1 dt hdt
    rw [provision_found hfind2] at hu2
    simp only at hu2
    rw [grantLoop_all_existing resolve gcnew.globus_uuid gcnew.id
      (existingUsernames db1 gcnew.id) study.users db1 [] hcov] at hu2
    have heq2 := h2.symm.trans hu2
    simp only [Except.ok.injEq, Prod.mk.injEq] at heq2
    obtain ⟨hdb2, htr2⟩ := heq2
    rw [htr2]
    exact ⟨rfl, rfl, hdb2⟩

/-- **C4.** A dataset-type string outside {sourcedata, rawdata, deriveddata}
makes `update_collection` fail with `UnknownDatasetType` (the `KeyError`
of `DatasetType.from_bids_str`), and the failing run leaves the database
unchanged, with no rows inserted and no remote calls in the trace. -/
theorem update_collection_unknown_dataset_type
    (resolve : String → String) (uuid_for : Study → String) (study : Study)
    (db : DB)
    (h1 : study.type ≠ "sourcedata") (h2 : study.type ≠ "rawdata")
    (h3 : study.type ≠ "deriveddata") :
    update_collection resolve (uuid_for study) study db =
      Except.error (GlobusError.UnknownDatasetType study.type) ∧
    main_native_loop resolve uuid_for [study] db =
      (db, [], some (GlobusError.UnknownDatasetType study.type)) := by
  have hnone : from_bids_str study.type = none := by
    unfold from_bids_str
    rw [if_neg h1, if_neg h2, if_neg h3]
  have herr : update_collection resolve (uuid_for study) study db =
      Except.error (GlobusError.UnknownDatasetType study.type) := by
    unfold update_collection
    rw [hnone]
  exact ⟨herr, by simp [main_native_loop, herr]⟩

/-- **C5 (counterexample).** The driver loop of `main_native` has no
per-study exception handling: with a bad first study (unknown dataset
type) and a well-formed second study, the run stops at the first study and
the second is never processed (no guest collection is created for it),
although processing the second study alone would create one. -/
theorem main_native_loop_stops_on_bad_study_cex :
    (main_native_loop resolve0 uuidFor0 [badStudy, goodStudy]
      emptyDB).1.guest_collections = [] ∧
    (main_native_loop resolve0 uuidFor0 [goodStudy]
      emptyDB).1.guest_collections ≠ [] ∧
    (main_native_loop resolve0 uuidFor0 [badStudy, goodStudy] emptyDB).2.2 =
      some (GlobusError.UnknownDatasetType "unknown") := by
  refine ⟨rfl, ?_, rfl⟩
  decide

/-- **C5 (amended).** Errors in one study's reconciliation are not caught at
a per-study boundary: when `update_collection` fails on a study, the driver
loop stops there, leaving the remaining studies unprocessed and the state
as it was at the failure. -/
theorem main_native_loop_failure_stops_run
    (resolve : String → String) (uuid_for : Study → String) (s : Study)
    (rest : List Study) (db : DB) (e : GlobusError)
    (h : update_collection resolve (uuid_for s) s db = Except.error e) :
    main_native_loop resolve uuid_for (s :: rest) db = (db, [], some e) := by
  simp [main_native_loop, h]

/-- **C6.** The username-to-`GlobusUser` mapping is reused, never
duplicated: reconciling two studies with distinct study ids, each granting
the same single username, from an empty database produces exactly one
`GlobusUser` row for that username (and one row in total) and two
association rows, one per guest collection. -/
theorem update_collection_reuses_globus_user
    (resolve : String → String) (u p1 p2 uuid1 uuid2 : String) (id1 id2 : Nat)
    (hne : id1 ≠ id2)
    {dbA dbB : DB} {trA trB : List Event}
    (h1 : update_collection resolve uuid1
      { id := id1, type := "rawdata", path := p1, users := [u] } emptyDB =
      Except.ok (dbA, trA))
    (h2 : update_collection resolve uuid2
      { id := id2, type := "rawdata", path := p2, users := [u] } dbA =
      Except.ok (dbB, trB)) :
    (dbB.globus_users.filter (fun gu => decide (gu.username = u))).length = 1 ∧
    dbB.globus_users.length = 1 ∧
    dbB.associations = [(0, 0), (1, 0)] ∧
    dbB.guest_collections.map GuestCollection.id = [0, 1] := by
  have hA : update_collection resolve uuid1
      { id := id1, type := "rawdata", path := p1, users := [u] } emptyDB =
      Except.ok
        (⟨[⟨0, id1, DatasetType.RAW_DATA, uuid1⟩], [⟨0, u, some 0⟩],
          [(0, 0)], 1, 1⟩,
         [Event.createCollectionCall
            (mkDisplayName { id := id1, type := "rawdata", path := p1, users := [u] })
            p1,
          Event.commit, add_read_permission resolve uuid1 u, Event.commit]) :=
    rfl
  have heqA := hA.symm.trans h1
  simp only [Except.ok.injEq, Prod.mk.injEq] at heqA
  obtain ⟨hdbA, -⟩ := heqA
  rw [← hdbA] at h2
  have hB : update_collection resolve uuid2
      { id := id2, type := "rawdata", path := p2, users := [u] }
      ⟨[⟨0, id1, DatasetType.RAW_DATA, uuid1⟩], [⟨0, u, some 0⟩],
        [(0, 0)], 1, 1⟩ =
      Except.ok
        (⟨[⟨0, id1, DatasetType.RAW_DATA, uuid1⟩,
            ⟨1, id2, DatasetType.RAW_DATA, uuid2⟩],
          [⟨0, u, some 0⟩], [(0, 0), (1, 0)], 2, 1⟩,
         [Event.createCollectionCall
            (mkDisplayName { id := id2, type := "rawdata", path := p2, users := [u] })
            p2,
          Event.commit, add_read_permission resolve uuid2 u, Event.commit]) := by
    simp [update_collection, from_bids_str, provision, grantLoop,
      existingUsernames, gcKeyMatch, hne, List.find?]
  have heqB := hB.symm.trans h2
  simp only [Except.ok.injEq, Prod.mk.injEq] at heqB
  obtain ⟨hdbB, -⟩ := heqB
  rw [← hdbB]
  refine ⟨?_, rfl, rfl, rfl⟩
  simp

/-- Every event in a block of `add_read_permission` calls that is a grant
call is a read-only rule on the given collection for the resolved
identity. -/
theorem grant_block_spec (resolve : String → String) (uuid : String)
    (l : List String) (e : Event)
    (he : e ∈ l.map (add_read_permission resolve uuid)) :
    ∀ c u rule, e = Event.grantCall c u rule →
      c = uuid ∧ rule.path = "/" ∧ rule.permissions = "r" ∧
      rule.principal_type = "identity" ∧ rule.principal = resolve u := by
  rw [List.mem_map] at he
  obtain ⟨w, -, rfl⟩ := he
  intro c u rule hrule
  simp only [add_read_permission, Event.grantCall.injEq] at hrule
  obtain ⟨rfl, rfl, rfl⟩ := hrule
  exact ⟨rfl, rfl, rfl, rfl, rfl⟩

/-- **C8.** Every access-control grant issued during reconciliation is
read-only: each grant event in the trace of `update_collection` is posted
on the study's guest collection and carries path "/", permissions "r",
principal type "identity", and the identity resolved from the granted
username. -/
theorem update_collection_grants_read_only
    (resolve : String → String) (new_uuid : String) (study : Study) (db : DB)
    (dt : DatasetType)
    (hdt : from_bids_str study.type = some dt)
    {db' : DB} {tr : List Event}
    (h : update_collection resolve new_uuid study db = Except.ok (db', tr)) :
    ∃ gc, gc ∈ db'.guest_collections ∧ gc.study_id = study.id ∧
      gc.dataset_type = dt ∧
      ∀ e ∈ tr, ∀ c u rule, e = Event.grantCall c u rule →
        c = gc.globus_uuid ∧ rule.path = "/" ∧ rule.permissions = "r" ∧
        rule.principal_type = "identity" ∧ rule.principal = resolve u := by
  cases hfind : db.guest_collections.find? (gcKeyMatch study.id dt) with
  | some gc =>
    have hu := update_collection_ok resolve new_uuid study db dt hdt
    rw [provision_found hfind] at hu
    simp only at hu
    have heq := h.symm.trans hu
    simp only [Except.ok.injEq, Prod.mk.injEq] at heq
    obtain ⟨hdb', htr⟩ := heq
    have hkey : gcKeyMatch study.id dt gc = true := List.find?_some hfind
    simp only [gcKeyMatch, Bool.and_eq_true, decide_eq_true_eq] at hkey
    refine ⟨gc, ?_, hkey.1, hkey.2, ?_⟩
    · rw [hdb',
        (grantLoop_gcs resolve gc.globus_uuid gc.id
          (existingUsernames db gc.id) study.users db []).1]
      exact List.mem_of_find?_eq_some hfind
    · intro e he c u rule hrule
      rw [htr, grantLoop_trace] at he
      simp only [List.nil_append] at he
      rcases List.mem_append.mp he with hg | hc
      · exact grant_block_spec resolve gc.globus_uuid _ e hg c u rule hrule
      · simp only [List.mem_singleton] at hc
        rw [hc] at hrule
        cases hrule
  | none =>
    have hu := update_collection_ok resolve new_uuid study db dt hdt
    rw [provision_none hfind] at hu
    simp only at hu
    have heq := h.symm.trans hu
    simp only [Except.ok.injEq, Prod.mk.injEq] at heq
    obtain ⟨hdb', htr⟩ := heq
    set gcnew : GuestCollection :=
      { id := db.next_gc_id
        study_id := study.id
        dataset_type := dt
        globus_uuid := new_uuid } with hgcnew
    refine ⟨gcnew, ?_, rfl, rfl, ?_⟩
    · rw [hdb',
        (grantLoop_gcs resolve new_uuid db.next_gc_id _ study.users _ _).1]
      exact List.mem_append_right _ (List.mem_singleton_self gcnew)
    · intro e he c u rule hrule
      rw [htr, grantLoop_trace] at he
      rcases List.mem_append.mp he with hg | hc
      · rcases List.mem_append.mp hg with hcc | hg'
        · simp only [List.mem_cons, List.not_mem_nil, or_false] at hcc
          rcases hcc with hcc | hcc <;> (rw [hcc] at hrule; cases hrule)
        · exact grant_block_spec resolve new_uuid _ e hg' c u rule hrule
      · simp only [List.mem_singleton] at hc
        rw [hc] at hrule
        cases hrule

/-- **C9.** Credential acquisition is lookup-then-create idempotent:
`get_credential` issues a create request iff the listing holds no
credential whose `storage_gateway_id` equals the target storage gateway;
when a matching credential exists, a matching credential's id is returned
and no create request is issued. -/
theorem get_credential_lookup_then_create (listing : List Credential)
    (gw created_id : String) :
    ((get_credential listing gw created_id).2 = 1 ↔
      ∀ c ∈ listing, c.storage_gateway_id ≠ gw) ∧
    ((∃ c ∈ listing, c.storage_gateway_id = gw) →
      (get_credential listing gw created_id).2 = 0 ∧
      ∃ c ∈ listing, c.storage_gateway_id = gw ∧
        (get_credential listing gw created_id).1 = c.id) := by
  cases hf : listing.find?
      (fun cred => decide (cred.storage_gateway_id = gw)) with
  | none =>
    have hval : get_credential listing gw created_id = (created_id, 1) := by
      unfold get_credential
      rw [hf]
    rw [List.find?_eq_none] at hf
    rw [hval]
    constructor
    · exact ⟨fun _ c hc => by simpa using hf c hc, fun _ => rfl⟩
    · rintro ⟨c, hc, he⟩
      exact absurd he (by simpa using hf c hc)
  | some cred =>
    have hval : get_credential listing gw created_id = (cred.id, 0) := by
      unfold get_credential
      rw [hf]
    have hmem := List.mem_of_find?_eq_some hf
    have hgw : cred.storage_gateway_id = gw := by
      simpa using List.find?_some hf
    rw [hval]
    constructor
    · constructor
      · intro h01
        cases h01
      · intro hall
        exact absurd hgw (hall cred hmem)
    · intro _
      exact ⟨rfl, cred, hmem, hgw, rfl⟩

/-- **C10.** If the study's user list contains the same username `k > 1`
times and that username is not among the usernames already associated with
the study's existing collection, `update_collection` issues `k` grant
calls for that one username: the membership test uses the `existing`
set computed once before the loop. -/
theorem update_collection_duplicate_users_duplicate_grants
    (resolve : String → String) (new_uuid : String) (study : Study) (db : DB)
    (dt : DatasetType) (gc : GuestCollection) (u : String) (k : Nat)
    (hdt : from_bids_str study.type = some dt)
    (hfind : db.guest_collections.find? (gcKeyMatch study.id dt) = some gc)
    (hcnt : study.users.count u = k) (hk : 1 < k)
    (hnot : u ∉ existingUsernames db gc.id)
    {db' : DB} {tr : List Event}
    (h : update_collection resolve new_uuid study db = Except.ok (db', tr)) :
    (grantedUsers tr).count u = k := by
  have hu := update_collection_ok resolve new_uuid study db dt hdt
  rw [provision_found hfind] at hu
  simp only at hu
  have heq := h.symm.trans hu
  simp only [Except.ok.injEq, Prod.mk.injEq] at heq
  obtain ⟨-, htr⟩ := heq
  have hgrants : grantedUsers tr =
      study.users.filter
        (fun v => decide (v ∉ existingUsernames db gc.id)) := by
    rw [htr, grantedUsers_append, grantLoop_trace]
    simp only [List.nil_append]
    rw [grantedUsers_map_grants]
    simp [grantedUsers]
  rw [hgrants, List.count_filter (by simpa using hnot)]
  exact hcnt

/-- **C7 (counterexample).** Permuting a duplicate-free user list does not
produce the same persisted user rows: surrogate ids are assigned in
iteration order, so running `update_collection` on `["alice", "bob"]` and
on `["bob", "alice"]` from the empty database yields different
`globus_user` tables (ids 0/1 swap between the two usernames). -/
theorem update_collection_order_dependent_rows_cex :
    studyBA.users.Perm studyAB.users ∧ studyAB.users.Nodup ∧
    (resultDB (update_collection resolve0 "uuid-3" studyAB emptyDB)
        emptyDB).globus_users ≠
      (resultDB (update_collection resolve0 "uuid-3" studyBA emptyDB)
        emptyDB).globus_users := by
  decide

/-- **C7 (amended).** The grant loop is order-independent up to surrogate-id
assignment: on two permutations of a duplicate-free user list,
`update_collection` produces the same guest-collection rows, the same set
of remote calls, the same set of usernames in the user table, and the same
set of association rows observed as (collection id, username) pairs.
(The raw user rows may differ, since surrogate ids follow iteration
order.) -/
theorem update_collection_perm_invariant_observables
    (resolve : String → String) (new_uuid : String) (study : Study)
    (users2 : List String) (db : DB) (dt : DatasetType)
    (hwf : db.UsersWF)
    (hperm : study.users.Perm users2)
    (hnd : study.users.Nodup)
    (hdt : from_bids_str study.type = some dt)
    {db1 db2 : DB} {tr1 tr2 : List Event}
    (h1 : update_collection resolve new_uuid study db = Except.ok (db1, tr1))
    (h2 : update_collection resolve new_uuid { study with users := users2 } db =
      Except.ok (db2, tr2)) :
    db1.guest_collections = db2.guest_collections ∧
    tr1.toFinset = tr2.toFinset ∧
    (db1.globus_users.map GlobusUser.username).toFinset =
      (db2.globus_users.map GlobusUser.username).toFinset ∧
    (assocObs db1).toFinset = (assocObs db2).toFinset := by
  have hnd2 : users2.Nodup := hperm.nodup_iff.mp hnd
  have hu1 := update_collection_ok resolve new_uuid study db dt hdt
  have hu2 := update_collection_ok resolve new_uuid
    { study with users := users2 } db dt hdt
  have hprov : provision new_uuid { study with users := users2 } dt db =
      provision new_uuid study dt db := rfl
  rw [hprov] at hu2
  rcases hP : provision new_uuid study dt db with ⟨gc, dbP, trP⟩
  rw [hP] at hu1 hu2
  simp only at hu1 hu2
  have hwfP : dbP.UsersWF := by
    unfold provision at hP
    cases hfind : db.guest_collections.find? (gcKeyMatch study.id dt) with
    | some g => rw [hfind] at hP; cases hP; exact hwf
    | none => rw [hfind] at hP; cases hP; exact hwf
  have heq1 := h1.symm.trans hu1
  simp only [Except.ok.injEq, Prod.mk.injEq] at heq1
  obtain ⟨hdb1, htr1⟩ := heq1
  have heq2 := h2.symm.trans hu2
  simp only [Except.ok.injEq, Prod.mk.injEq] at heq2
  obtain ⟨hdb2, htr2⟩ := heq2
  set ex := existingUsernames dbP gc.id with hex
  have hpf : (study.users.filter fun u => decide (u ∉ ex)).Perm
      (users2.filter fun u => decide (u ∉ ex)) := hperm.filter _
  refine ⟨?_, ?_, ?_, ?_⟩
  · rw [hdb1, hdb2,
      (grantLoop_gcs resolve gc.globus_uuid gc.id ex study.users dbP trP).1,
      (grantLoop_gcs resolve gc.globus_uuid gc.id ex users2 dbP trP).1]
  · rw [htr1, htr2, grantLoop_trace, grantLoop_trace]
    exact List.toFinset_eq_of_perm _ _
      ((((hpf.map (add_read_permission resolve gc.globus_uuid)).append_left
        trP).append_right [Event.commit]))
  · rw [hdb1, hdb2,
      grantLoop_usernames resolve gc.globus_uuid gc.id ex study.users dbP trP
        hnd,
      grantLoop_usernames resolve gc.globus_uuid gc.id ex users2 dbP trP hnd2]
    exact List.toFinset_eq_of_perm _ _
      ((hperm.filter _).append_left (dbP.globus_users.map GlobusUser.username))
  · rw [hdb1, hdb2,
      grantLoop_assocObs resolve gc.globus_uuid gc.id ex study.users dbP trP
        hwfP,
      grantLoop_assocObs resolve gc.globus_uuid gc.id ex users2 dbP trP hwfP]
    exact List.toFinset_eq_of_perm _ _
      ((hpf.map (fun u => (gc.id, u))).append_left (assocObs dbP))

/-! ### Witnesses: each claim theorem applied at a concrete input -/

/-- Witness for C1 at `studyY` over `dbY`. -/
theorem update_collection_grants_exactly_diff_witness :
    ∃ db' tr,
      update_collection resolve0 "uuid-y2" studyY dbY = Except.ok (db', tr) ∧
      (grantedUsers tr =
        studyY.users.filter
          (fun u => decide (u ∉ existingUsernames dbY gcY.id)) ∧
      (grantedUsers tr).Nodup ∧
      db'.associations.length =
        dbY.associations.length + (grantedUsers tr).length ∧
      ∀ v ∈ existingUsernames dbY gcY.id, v ∉ grantedUsers tr) := by
  refine ⟨_, _, rfl, ?_⟩
  exact update_collection_grants_exactly_diff resolve0 "uuid-y2" studyY dbY
    DatasetType.RAW_DATA gcY (by decide) (by decide) (by decide) (by decide)
    (by decide) rfl

/-- Witness for C2 at `goodStudy` over the empty database. -/
theorem update_collection_provision_if_absent_witness :
    ∃ db' rest,
      update_collection resolve0 "uuid-2" goodStudy emptyDB =
        Except.ok (db',
          Event.createCollectionCall (mkDisplayName goodStudy) goodStudy.path ::
            Event.commit :: rest) ∧
      countCreates
        (Event.createCollectionCall (mkDisplayName goodStudy) goodStudy.path ::
          Event.commit :: rest) = 1 ∧
      countCreates rest = 0 ∧
      db'.guest_collections = emptyDB.guest_collections ++
        [{ id := emptyDB.next_gc_id
           study_id := goodStudy.id
           dataset_type := DatasetType.RAW_DATA
           globus_uuid := "uuid-2" }] :=
  (update_collection_provision_if_absent resolve0 "uuid-2" goodStudy emptyDB
    DatasetType.RAW_DATA (by decide)).1 (by decide)

/-- Witness for C3 at `goodStudy` over the empty database. -/
theorem update_collection_idempotent_witness :
    ∃ db1 tr1 db2 tr2,
      update_collection resolve0 "u1" goodStudy emptyDB =
        Except.ok (db1, tr1) ∧
      update_collection resolve0 "u2" goodStudy db1 = Except.ok (db2, tr2) ∧
      (countGrants tr2 = 0 ∧ countCreates tr2 = 0 ∧ db2 = db1) := by
  refine ⟨_, _, _, _, rfl, rfl, ?_⟩
  exact update_collection_idempotent resolve0 "u1" "u2" goodStudy emptyDB
    DatasetType.RAW_DATA (by decide) (by decide) rfl rfl

/-- Witness for C4 at `badStudy`. -/
theorem update_collection_unknown_dataset_type_witness :
    update_collection resolve0 (uuidFor0 badStudy) badStudy emptyDB =
      Except.error (GlobusError.UnknownDatasetType badStudy.type) ∧
    main_native_loop resolve0 uuidFor0 [badStudy] emptyDB =
      (emptyDB, [], some (GlobusError.UnknownDatasetType badStudy.type)) :=
  update_collection_unknown_dataset_type resolve0 uuidFor0 badStudy emptyDB
    (by decide) (by decide) (by decide)

/-- Witness for C5 (amended): the bad study aborts the run before the good
study is processed. -/
theorem main_native_loop_failure_stops_run_witness :
    main_native_loop resolve0 uuidFor0 [badStudy, goodStudy] emptyDB =
      (emptyDB, [], some (GlobusError.UnknownDatasetType "unknown")) :=
  main_native_loop_failure_stops_run resolve0 uuidFor0 badStudy [goodStudy]
    emptyDB (GlobusError.UnknownDatasetType "unknown") rfl

/-- Witness for C6: `alice` granted on studies 1 and 2 in sequence. -/
theorem update_collection_reuses_globus_user_witness :
    ∃ dbA trA dbB trB,
      update_collection resolve0 "u1"
        { id := 1, type := "rawdata", path := "/a", users := ["alice"] }
        emptyDB = Except.ok (dbA, trA) ∧
      update_collection resolve0 "u2"
        { id := 2, type := "rawdata", path := "/b", users := ["alice"] }
        dbA = Except.ok (dbB, trB) ∧
      ((dbB.globus_users.filter
          (fun gu => decide (gu.username = "alice"))).length = 1 ∧
        dbB.globus_users.length = 1 ∧
        dbB.associations = [(0, 0), (1, 0)] ∧
        dbB.guest_collections.map GuestCollection.id = [0, 1]) := by
  refine ⟨_, _, _, _, rfl, rfl, ?_⟩
  exact update_collection_reuses_globus_user resolve0 "alice" "/a" "/b" "u1"
    "u2" 1 2 (by decide) rfl rfl

/-- Witness for C7 (amended) at `studyAB` against the permuted list. -/
theorem update_collection_perm_invariant_observables_witness :
    ∃ db1 tr1 db2 tr2,
      update_collection resolve0 "uuid-3" studyAB emptyDB =
        Except.ok (db1, tr1) ∧
      update_collection resolve0 "uuid-3"
        { studyAB with users := studyBA.users } emptyDB =
        Except.ok (db2, tr2) ∧
      (db1.guest_collections = db2.guest_collections ∧
        tr1.toFinset = tr2.toFinset ∧
        (db1.globus_users.map GlobusUser.username).toFinset =
          (db2.globus_users.map GlobusUser.username).toFinset ∧
        (assocObs db1).toFinset = (assocObs db2).toFinset) := by
  refine ⟨_, _, _, _, rfl, rfl, ?_⟩
  exact update_collection_perm_invariant_observables resolve0 "uuid-3" studyAB
    studyBA.users emptyDB DatasetType.RAW_DATA (by decide) (by decide)
    (by decide) (by decide) rfl rfl

/-- Witness for C8 at `goodStudy` over the empty database. -/
theorem update_collection_grants_read_only_witness :
    ∃ db' tr,
      update_collection resolve0 "uuid-2" goodStudy emptyDB =
        Except.ok (db', tr) ∧
      ∃ gc, gc ∈ db'.guest_collections ∧ gc.study_id = goodStudy.id ∧
        gc.dataset_type = DatasetType.RAW_DATA ∧
        ∀ e ∈ tr, ∀ c u rule, e = Event.grantCall c u rule →
          c = gc.globus_uuid ∧ rule.path = "/" ∧ rule.permissions = "r" ∧
          rule.principal_type = "identity" ∧ rule.principal = resolve0 u := by
  refine ⟨_, _, rfl, ?_⟩
  exact update_collection_grants_read_only resolve0 "uuid-2" goodStudy emptyDB
    DatasetType.RAW_DATA (by decide) rfl

/-- Witness for C9 at a concrete listing holding a matching credential in
second position. -/
theorem get_credential_lookup_then_create_witness :
    ((get_credential credListX "gw-1" "new-cred").2 = 1 ↔
      ∀ c ∈ credListX, c.storage_gateway_id ≠ "gw-1") ∧
    ((∃ c ∈ credListX, c.storage_gateway_id = "gw-1") →
      (get_credential credListX "gw-1" "new-cred").2 = 0 ∧
      ∃ c ∈ credListX, c.storage_gateway_id = "gw-1" ∧
        (get_credential credListX "gw-1" "new-cred").1 = c.id) :=
  get_credential_lookup_then_create credListX "gw-1" "new-cred"

/-- Witness for C10 at `dupStudy` (username `carol` twice) over `dbX`. -/
theorem update_collection_duplicate_users_duplicate_grants_witness :
    ∃ db' tr,
      update_collection resolve0 "uuid-x2" dupStudy dbX = Except.ok (db', tr) ∧
      (grantedUsers tr).count "carol" = 2 := by
  refine ⟨_, _, rfl, ?_⟩
  exact update_collection_duplicate_users_duplicate_grants resolve0 "uuid-x2"
    dupStudy dbX DatasetType.RAW_DATA gcX "carol" 2 (by decide) (by decide)
    (by decide) (by decide) (by decide) rfl

end Autobids
